import Mathlib

/-!
Verification of the SOP Python facade (src/bindings/python/sop and
src/jsondb/python/sop) against its natural-language specification.

The Python modules are shallowly embedded: dataclasses become structures,
methods become pure functions, exceptions become `Except`/sum results, and
mutation of `self` becomes explicit state passing.  The Go engine reached
through `call_go` is not part of the source tree; where a claim depends on it,
the engine is modelled from the spec (such definitions carry a doc comment
starting with `Modelled from the spec:`), and everywhere else engine replies
are abstracted as parameters.
-/

/- ## transaction.py (src/bindings/python/sop/transaction.py) -/

/-- Python `uuid.UUID` values are modelled as naturals; `uuid.UUID(int=0)` is 0. -/
abbrev PyUuid := Nat

inductive DatabaseType where
  | Standalone
  | Clustered
deriving DecidableEq, Repr

/-- Enum value of `DatabaseType` (`Standalone = 0`, `Clustered = 1`). -/
def DatabaseType.value : DatabaseType → Int
  | .Standalone => 0
  | .Clustered => 1

/-- Lower clamp bound of the registry hash mod (transaction.py line 40). -/
def MIN_HASH_MOD_VALUE : Int := 250

/-- Upper clamp bound of the registry hash mod (transaction.py line 42). -/
def MAX_HASH_MOD_VALUE : Int := 750000

structure ErasureCodingConfig where
  data_shards_count : Int
  parity_shards_count : Int
  base_folder_paths_across_drives : List String
  repair_corrupted_shards : Bool := false
deriving DecidableEq, Repr

structure RedisCacheConfig where
  address : String := ""
  password : String := ""
  db : Int := 0
  url : String := ""
deriving DecidableEq, Repr

/-- The `DatabaseOptions` dataclass.  A Python dict field is a list of pairs;
`Option` models `None`-able fields. -/
structure DatabaseOptions where
  type : DatabaseType := .Standalone
  erasure_config : Option (List (String × ErasureCodingConfig)) := none
  stores_folders : Option (List String) := none
  keyspace : Option String := none
  registry_hash_mod : Int := -1
  redis_config : Option RedisCacheConfig := none
deriving DecidableEq, Repr

/-- Exceptions raised by the transaction layer. -/
inductive TxError where
  | invalidState (msg : String)
  | txError (msg : String)
deriving DecidableEq, Repr

/-- The mutable state of a Python `Transaction` object: `transaction_id`,
`begun` and `_completed`. -/
structure PyTransaction where
  transaction_id : PyUuid
  begun : Bool
  completed : Bool
deriving DecidableEq, Repr

/-- Result of a transaction method: normal return or a raised exception,
together with the object state after the call. -/
inductive TxResult (α : Type) where
  | ok (val : α) (st : PyTransaction)
  | raised (e : TxError) (st : PyTransaction)
deriving DecidableEq, Repr

/-- `Transaction.commit` (transaction.py lines 185-208).  `engine` is the reply
of `call_go.manage_transaction` (`none` = success, `some msg` = error text). -/
def Transaction.commit (engine : Option String) (st : PyTransaction) : TxResult Unit :=
  if st.completed then .ok () st
  else if st.transaction_id = 0 then
    .raised (.invalidState "transaction_id is missing") st
  else
    match engine with
    | some res => .raised (.txError ("Transaction commit failed, details " ++ res)) st
    | none => .ok () { st with completed := true }

/-- `Transaction.rollback` (transaction.py lines 210-232). -/
def Transaction.rollback (engine : Option String) (st : PyTransaction) : TxResult Unit :=
  if st.completed then .ok () st
  else if st.transaction_id = 0 then
    .raised (.invalidState "transaction_id is missing") st
  else
    match engine with
    | some res => .raised (.txError ("Transaction rollback failed, details " ++ res)) st
    | none => .ok () { st with completed := true }

/-- Outcome of `Transaction.__exit__`: a boolean return value (`true` suppresses
the pending exception, `false` propagates it) or an exception raised by the
method itself, with the state after the call. -/
inductive ExitOut where
  | ret (suppress : Bool) (st : PyTransaction)
  | raised (e : TxError) (st : PyTransaction)
deriving DecidableEq, Repr

/-- Whether the `__exit__` call suppressed the exception active in the block. -/
def ExitOut.suppressed : ExitOut → Bool
  | .ret b _ => b
  | .raised _ _ => false

/-- `Transaction.__exit__` (transaction.py lines 152-165).  `excPresent` models
`exc_type` being non-`None`; `commitEngine`/`rollbackEngine` are the engine
replies the nested `commit`/`rollback` calls would observe. -/
def Transaction.exitStep (commitEngine rollbackEngine : Option String)
    (excPresent : Bool) (st : PyTransaction) : ExitOut :=
  if st.completed then .ret true st
  else if excPresent then
    match Transaction.rollback rollbackEngine st with
    | .ok _ st' => .ret false st'
    | .raised e st' => .raised e st'
  else
    match Transaction.commit commitEngine st with
    | .ok _ st' => .ret true st'
    | .raised e st' => .raised e st'

/- ## database.py (src/bindings/python/sop/database.py) -/

/-- The module-level names in scope in `src/bindings/python/sop/database.py`:
its imports (lines 1-12) and its own top-level definitions.  Note that the
module imports only `DatabaseType, DatabaseOptions, RedisCacheConfig` from
`.transaction`; `ErasureCodingConfig` is nowhere imported or defined. -/
def databasePyGlobals : List String :=
  ["json", "uuid", "asdict", "Dict", "Optional", "Enum",
   "call_go", "context", "transaction",
   "Btree", "BtreeOptions", "IndexSpecification", "Index",
   "DatabaseType", "DatabaseOptions", "RedisCacheConfig",
   "DatabaseAction", "Database"]

/-- Python name resolution for a bare name used inside `database.py`: a
`NameError` is raised when the name is not among the module globals. -/
def resolveName (scope : List String) (n : String) : Except String Unit :=
  if n ∈ scope then .ok () else .error ("NameError: name " ++ n ++ " is not defined")

/-- A JSON object reply of the Go side describing database options, after key
normalisation (Go `Setup` already uses snake_case tags; `get_options`
converts PascalCase keys with `to_snake`).  `Option` marks keys that may be
absent from the JSON dict. -/
structure GoStoredOptions where
  type : Int
  erasure_config : Option (List (String × ErasureCodingConfig)) := none
  stores_folders : Option (List String) := none
  keyspace : Option String := none
  registry_hash_mod : Option Int := none
  redis_config : Option RedisCacheConfig := none
deriving DecidableEq, Repr

/-- `DatabaseType(v)` enum construction; raises `ValueError` on unknown values. -/
def intToDatabaseType : Int → Except String DatabaseType
  | 0 => .ok .Standalone
  | 1 => .ok .Clustered
  | _ => .error "ValueError: not a valid DatabaseType"

/-- Body of the `try` block of `Database._deserialize_opts` (database.py lines
44-80) on an already-parsed JSON dict.  The `redis_config` branch references
`RedisCacheConfig` and the `erasure_config` branch references
`ErasureCodingConfig` (line 62); each reference resolves against the module
scope and raises `NameError` when absent. -/
def Database.deserializeOptsCore (scope : List String) (data : GoStoredOptions) :
    Except String DatabaseOptions := do
  let redis ← match data.redis_config with
    | some rc => do
        let _ ← resolveName scope "RedisCacheConfig"
        pure (some rc)
    | none => pure none
  let ec ← match data.erasure_config with
    | some m => do
        let _ ← resolveName scope "ErasureCodingConfig"
        pure (some m)
    | none => pure none
  let ty ← intToDatabaseType data.type
  pure { type := ty
         erasure_config := ec
         stores_folders := data.stores_folders
         keyspace := data.keyspace
         registry_hash_mod := data.registry_hash_mod.getD (-1)
         redis_config := redis }

/-- `Database._deserialize_opts`: the bare `except` turns any exception inside
the `try` block into `None`. -/
def Database.deserialize_opts (scope : List String) (data : GoStoredOptions) :
    Option DatabaseOptions :=
  match Database.deserializeOptsCore scope data with
  | .ok o => some o
  | .error _ => none

/-- The dict built by `Database._serialize_options` (database.py lines
111-130).  Falsy fields (`None`, empty dict/list/string) are omitted; the
`registry_hash_mod` of the options is never serialized. -/
structure SetupPayload where
  type : Int
  erasure_config : Option (List (String × ErasureCodingConfig)) := none
  stores_folders : Option (List String) := none
  keyspace : Option String := none
  redis_config : Option RedisCacheConfig := none
  cache_type : Option Int := none
deriving DecidableEq, Repr

/-- `Database._serialize_options`. -/
def Database.serialize_options (o : DatabaseOptions) : SetupPayload :=
  { type := o.type.value
    erasure_config :=
      match o.erasure_config with
      | some m => if m.isEmpty then none else some m
      | none => none
    stores_folders :=
      match o.stores_folders with
      | some s => if s.isEmpty then none else some s
      | none => none
    keyspace :=
      match o.keyspace with
      | some k => if k = "" then none else some k
      | none => none
    redis_config := o.redis_config
    cache_type :=
      match o.redis_config with
      | some _ => some 2
      | none => none }

/-- Field-wise write-back loop of `Database.setup` (database.py lines
102-105): every field of the deserialized reply that `is not None` overwrites
the caller's options; `type` and `registry_hash_mod` are never `None`. -/
def Database.mergeUpdate (o upd : DatabaseOptions) : DatabaseOptions :=
  { type := upd.type
    erasure_config :=
      match upd.erasure_config with
      | some e => some e
      | none => o.erasure_config
    stores_folders :=
      match upd.stores_folders with
      | some s => some s
      | none => o.stores_folders
    keyspace :=
      match upd.keyspace with
      | some k => some k
      | none => o.keyspace
    registry_hash_mod := upd.registry_hash_mod
    redis_config :=
      match upd.redis_config with
      | some r => some r
      | none => o.redis_config }

/-- `Database.setup` (database.py lines 82-109).  `res` is the reply of
`call_go.manage_database`: `none` for a NULL reply, `Sum.inl` for a JSON
object (already parsed), `Sum.inr` for a non-JSON error string.  The result is
the caller's options object after the call, or the raised exception text. -/
def Database.setup (scope : List String) (options : DatabaseOptions)
    (res : Option (GoStoredOptions ⊕ String)) : Except String DatabaseOptions :=
  match res with
  | none => .ok options
  | some (.inl data) =>
      match Database.deserialize_opts scope data with
      | some upd => .ok (Database.mergeUpdate options upd)
      | none => .ok options
  | some (.inr msg) => .error msg

/-- Hydration performed inside the `try` block of `Database.get_options`
(database.py lines 146-181): enum fix-up, then `redis_config` (references
`RedisCacheConfig`), then `erasure_config` — hydrated only when truthy
(non-empty), referencing `ErasureCodingConfig` (line 169). -/
def Database.getOptionsHydrate (scope : List String) (data : GoStoredOptions) :
    Except String DatabaseOptions := do
  let ty ← intToDatabaseType data.type
  let redis ← match data.redis_config with
    | some rc => do
        let _ ← resolveName scope "RedisCacheConfig"
        pure (some rc)
    | none => pure none
  let ec ← match data.erasure_config with
    | some m =>
        if m.isEmpty then pure (some m)
        else do
          let _ ← resolveName scope "ErasureCodingConfig"
          pure (some m)
    | none => pure none
  pure { type := ty
         erasure_config := ec
         stores_folders := data.stores_folders
         keyspace := data.keyspace
         registry_hash_mod := data.registry_hash_mod.getD (-1)
         redis_config := redis }

/-- `Database.get_options` (database.py lines 132-190).  An exception inside
the `try` block is swallowed (`pass`); since a JSON reply starts with a brace,
the function then returns `None`.  A non-JSON reply is raised. -/
def Database.get_options (scope : List String) (res : Option (GoStoredOptions ⊕ String)) :
    Except String (Option DatabaseOptions) :=
  match res with
  | none => .ok none
  | some (.inl data) =>
      match Database.getOptionsHydrate scope data with
      | .ok o => .ok (some o)
      | .error _ => .ok none
  | some (.inr msg) => .error msg

/- ## The Go engine behind `Database.setup` / `Database.get_options` -/

/-- Modelled from the spec: `registry_hash_mod` is "clamped to [250, 750000]"
(spec section 6); the clamp bounds are the `MIN_HASH_MOD_VALUE` /
`MAX_HASH_MOD_VALUE` constants of transaction.py.  The Go code performing the
clamp is not under src/. -/
def clampHashMod (r : Int) : Int :=
  if r < MIN_HASH_MOD_VALUE then MIN_HASH_MOD_VALUE
  else if MAX_HASH_MOD_VALUE < r then MAX_HASH_MOD_VALUE
  else r

/-- Modelled from the spec: the Go `Setup` implementation (not under src/)
persists the received options as the effective configuration, "inventing
defaults such as registry hash-mod" (spec section 4.7) and clamping the hash
mod.  The payload built by `Database._serialize_options` carries no
`registry_hash_mod`, so the engine clamps its own default `defaultHashMod`,
which is left abstract. -/
def goSetup (defaultHashMod : Int) (p : SetupPayload) : GoStoredOptions :=
  { type := p.type
    erasure_config := p.erasure_config
    stores_folders := p.stores_folders
    keyspace := p.keyspace
    registry_hash_mod := some (clampHashMod defaultHashMod)
    redis_config := p.redis_config }

/-- Modelled from the spec: `get_options(path)` reads back the persisted
effective configuration (spec section 4.7); the Go reader is not under src/. -/
def goGetOptions (stored : GoStoredOptions) : GoStoredOptions := stored

/- ## btree.py (src/jsondb/python/sop/btree.py) -/

inductive ValueDataSize where
  | Small
  | Medium
  | Big
deriving DecidableEq, Repr

inductive PagingDirection where
  | Forward
  | Backward
deriving DecidableEq, Repr

/-- Enum value of `PagingDirection` (`Forward = 0`, `Backward = 1`). -/
def PagingDirection.value : PagingDirection → Int
  | .Forward => 0
  | .Backward => 1

structure PagingInfo where
  page_offset : Int := 0
  page_size : Int := 20
  fetch_count : Int := 0
  direction : Int := 0
deriving DecidableEq, Repr

structure CacheConfig where
  registry_cache_duration : Int := 10
  is_registry_cache_ttl : Bool := false
  node_cache_duration : Int := 5
  is_node_cache_ttl : Bool := false
  store_info_cache_duration : Int := 5
  is_store_info_cache_ttl : Bool := false
  value_data_cache_duration : Int := 0
  is_value_data_cache_ttl : Bool := false
deriving DecidableEq, Repr

structure BtreeOptions where
  name : String
  is_unique : Bool := false
  slot_length : Int := 500
  description : String := ""
  is_value_data_in_node_segment : Bool := true
  is_value_data_actively_persisted : Bool := false
  is_value_data_globally_cached : Bool := false
  index_specification : String := ""
  transaction_id : String := "00000000-0000-0000-0000-000000000000"
  cache_config : Option CacheConfig := none
  is_primitive_key : Bool := true
  leaf_load_balancing : Bool := false
deriving DecidableEq, Repr

/-- `BtreeOptions.set_value_data_size` (btree.py lines 109-117): two `if`
statements handle `Medium` and `Big`; there is no branch for `Small`. -/
def BtreeOptions.set_value_data_size (b : BtreeOptions) (s : ValueDataSize) : BtreeOptions :=
  let b1 :=
    if s = ValueDataSize.Medium then
      { b with is_value_data_actively_persisted := false
               is_value_data_globally_cached := true
               is_value_data_in_node_segment := false }
    else b
  if s = ValueDataSize.Big then
    { b1 with is_value_data_actively_persisted := true
              is_value_data_globally_cached := false
              is_value_data_in_node_segment := false }
  else b1

/-- The facade object constructed by `Btree.__init__`. -/
structure BtreeHandle where
  id : PyUuid
  is_primitive_key : Bool
  transaction_id : PyUuid
deriving DecidableEq, Repr

/-- The `ManageBtreeMetaData` dataclass sent to the engine on every operation. -/
structure ManageBtreeMetaData where
  is_primitive_key : Bool
  transaction_id : PyUuid
  btree_id : PyUuid
deriving DecidableEq, Repr

/-- Metadata construction repeated in every `Btree` method: it always reports
`self.is_primitive_key`. -/
def Btree.metadata (b : BtreeHandle) : ManageBtreeMetaData :=
  { is_primitive_key := b.is_primitive_key
    transaction_id := b.transaction_id
    btree_id := b.id }

/-- A reply of `call_go.manage_btree` for New/Open: `none` models a NULL reply,
`Sum.inl` a reply string that parses as a UUID, `Sum.inr` one that does not
(`uuid.UUID(res)` raised, so the text is an engine error message). -/
abbrev UuidReply := Option (PyUuid ⊕ String)

/-- The options object after the in-place updates at the start of `Btree.new`
(btree.py lines 207-209): `transaction_id` is set and, when an index spec is
given, its JSON is stored in `index_specification`. -/
def Btree.newOptions (options : BtreeOptions) (transIdStr : String)
    (indexSpecJson : Option String) : BtreeOptions :=
  let o := { options with transaction_id := transIdStr }
  match indexSpecJson with
  | some s => { o with index_specification := s }
  | none => o

/-- `Btree.new` (btree.py lines 182-223): the handle carries
`options.is_primitive_key`. -/
def Btree.new (options : BtreeOptions) (transId : PyUuid) (reply : UuidReply) :
    Except String BtreeHandle :=
  match reply with
  | none => .error "unable to create a Btree in SOP"
  | some (.inl b3id) => .ok { id := b3id, is_primitive_key := options.is_primitive_key,
                              transaction_id := transId }
  | some (.inr msg) => .error msg

/-- `Btree.open` (btree.py lines 225-256): the handle is built with the literal
`False` for `is_primitive_key` (line 256). -/
def Btree.openBtree (name : String) (transId : PyUuid) (reply : UuidReply) :
    Except String BtreeHandle :=
  match reply with
  | none => .error ("unable to open a Btree:" ++ name ++ " in SOP")
  | some (.inl b3id) => .ok { id := b3id, is_primitive_key := false,
                              transaction_id := transId }
  | some (.inr msg) => .error msg

/-- Python `str.lower()` (ASCII case folding over the characters). -/
def pyLower (s : String) : String :=
  String.mk (s.data.map Char.toLower)

/-- `Btree._to_bool` (btree.py lines 601-611): `res.lower()` compared against
the literals `"true"` and `"false"`; anything else raises `BtreeError(res)`. -/
def Btree.toBool (res : String) : Except String Bool :=
  if pyLower res = "true" then .ok true
  else if pyLower res = "false" then .ok false
  else .error res

/-- Reply handling of `Btree._manage` (btree.py lines 548-564): a NULL reply
raises, any other reply goes through `_to_bool`. -/
def Btree.manage (btreeId : PyUuid) (reply : Option String) : Except String Bool :=
  match reply with
  | none => .error ("unable to manage item to a Btree:" ++ toString btreeId ++ " in SOP")
  | some res => Btree.toBool res

/-- A reply of `call_go.get_from_btree`: the payload (already parsed into an
item list) and the error string, either of which may be NULL. -/
structure FetchReply (I : Type) where
  result : Option (List I)
  error : Option String

/-- Shared reply handling of `Btree.get_values` (btree.py lines 305-340) and
`Btree._get` (lines 566-599), whose bodies duplicate it verbatim: an error
with no payload raises; an error alongside a payload is only logged and the
partial payload is returned; no payload returns `None`.  The second component
collects the logged error messages. -/
def Btree.getOutcome (r : FetchReply I) : Except String (Option (List I)) × List String :=
  match r.error, r.result with
  | some e, none => (.error e, [])
  | some e, some items => (.ok (some items), [e])
  | none, none => (.ok none, [])
  | none, some items => (.ok (some items), [])

/-- First `if` of the direction clamp in `Btree._get` (btree.py lines
572-573): a direction above `Backward` is set to `Backward`. -/
def clampDirUpper (p : PagingInfo) : PagingInfo :=
  if PagingDirection.value .Backward < p.direction then
    { p with direction := PagingDirection.value .Backward }
  else p

/-- Second `if` of the direction clamp in `Btree._get` (btree.py lines
574-575): a direction below `Forward` is set to `Forward`. -/
def clampDirLower (p : PagingInfo) : PagingInfo :=
  if p.direction < PagingDirection.value .Forward then
    { p with direction := PagingDirection.value .Forward }
  else p

/-- Direction clamp at the top of `Btree._get` (btree.py lines 572-575): the
two `if` statements applied in sequence to the caller's `PagingInfo` object
in place. -/
def clampPaging (p : PagingInfo) : PagingInfo :=
  clampDirLower (clampDirUpper p)

/-- `Btree._get` (btree.py lines 566-599): clamp the paging direction, call the
engine with the clamped paging info, handle the reply.  The returned
`PagingInfo` is the caller's object after the in-place mutation. -/
def Btree.get (engine : PagingInfo → FetchReply I) (p : PagingInfo) :
    (Except String (Option (List I)) × List String) × PagingInfo :=
  let p' := clampPaging p
  (Btree.getOutcome (engine p'), p')

/- ## The Go engine behind the mutating B-tree calls -/

/-- Modelled from the spec: the keyed store managed by the Go engine (not under
src/), as a sequence of key/value pairs. -/
abbrev GoStore (K V : Type) := List (K × V)

/-- Modelled from the spec: `add_if_not_exists(batch)` inserts the items whose
keys are absent and the engine replies `true` iff all items were inserted
(spec section 4.4).  The Go implementation is not under src/. -/
def engineAddIfNotExists [DecidableEq K] : GoStore K V → List (K × V) → Bool × GoStore K V
  | st, [] => (true, st)
  | st, it :: rest =>
      if st.any fun p => decide (p.1 = it.1) then
        let r := engineAddIfNotExists st rest
        (false, r.2)
      else
        engineAddIfNotExists (st ++ [it]) rest

/-- Modelled from the spec: `remove(keys)` removes the listed keys and the
engine replies `true` iff all keys were removed (spec section 4.4).  The Go
implementation is not under src/. -/
def engineRemove [DecidableEq K] : GoStore K V → List K → Bool × GoStore K V
  | st, [] => (true, st)
  | st, k :: rest =>
      if st.any fun p => decide (p.1 = k) then
        engineRemove (st.filter fun p => !decide (p.1 = k)) rest
      else
        let r := engineRemove st rest
        (false, r.2)

/-- Modelled from the spec: value overwrite used by `upsert` — the stored pair
takes the new value when the keys match. -/
def replaceVal [DecidableEq K] (x : K × V) (p : K × V) : K × V :=
  if p.1 = x.1 then (p.1, x.2) else p

/-- Modelled from the spec: `upsert` means "insert or update" (spec section
4.4); an item whose key exists overwrites the stored value, otherwise it is
appended.  The Go implementation is not under src/. -/
def upsertOne [DecidableEq K] (st : GoStore K V) (x : K × V) : GoStore K V :=
  if st.any fun p => decide (p.1 = x.1) then st.map (replaceVal x)
  else st ++ [x]

/-- Modelled from the spec: `find(key)` reports whether an item with the key
exists (spec section 4.4). -/
def engineFind [DecidableEq K] (st : GoStore K V) (k : K) : Bool :=
  st.any fun p => decide (p.1 = k)

/-- Modelled from the spec: `get_values` fetches the value stored under a key
(spec section 4.4). -/
def engineGetValues [DecidableEq K] (st : GoStore K V) (k : K) : Option V :=
  (st.find? fun p => decide (p.1 = k)).map Prod.snd

/-- Modelled from the spec: `count` is the number of stored items. -/
def engineCount (st : GoStore K V) : Nat := st.length

/-- The boolean engine reply on the wire, as the facade receives it. -/
def boolReply (b : Bool) : String :=
  if b then "true" else "false"

/-- `Btree.add_if_not_exists` run against the modelled engine: the engine reply
is fed through `Btree._manage`, and the store is updated. -/
def Btree.addIfNotExistsRun [DecidableEq K] (btreeId : PyUuid) (st : GoStore K V)
    (items : List (K × V)) : Except String Bool × GoStore K V :=
  let r := engineAddIfNotExists st items
  (Btree.manage btreeId (some (boolReply r.1)), r.2)

/-- `Btree.remove` run against the modelled engine: a NULL reply raises
(btree.py lines 282-285), otherwise the reply goes through `_to_bool`. -/
def Btree.removeRun [DecidableEq K] (btreeId : PyUuid) (st : GoStore K V)
    (keys : List K) : Except String Bool × GoStore K V :=
  let r := engineRemove st keys
  let reply : Option String := some (boolReply r.1)
  (match reply with
   | none => .error ("unable to remove item w/ key from a Btree:" ++ toString btreeId ++ " in SOP")
   | some res => Btree.toBool res,
   r.2)

/- ## Concrete inputs used by the claim theorems -/

/-- An erasure-coding configuration shaped like the ones in the repo demos. -/
def ecDemo : ErasureCodingConfig :=
  { data_shards_count := 2
    parity_shards_count := 1
    base_folder_paths_across_drives := ["/sop/disk1", "/sop/disk2", "/sop/disk3"]
    repair_corrupted_shards := true }

/-- Database options whose `erasure_config` map is non-empty. -/
def optsDemo : DatabaseOptions :=
  { type := .Standalone
    erasure_config := some [("", ecDemo)]
    stores_folders := some ["/sop/data"] }

/-- A transaction object on which commit or rollback has already completed. -/
def completedTx : PyTransaction := { transaction_id := 1, begun := true, completed := true }

/-- An options value that encodes the Big placement. -/
def bigOpts : BtreeOptions :=
  BtreeOptions.set_value_data_size { name := "store1" } ValueDataSize.Big

/- ## Claims C1 - C5 -/

/-- C1: against the claim, a setup followed by `get_options` on options with a
non-empty `erasure_config` does NOT return the effective options: the
hydration code of `database.py` references `ErasureCodingConfig`, a name the
module never imports, the resulting `NameError` is swallowed by the bare
`except`, and `get_options` returns `None`; `setup` likewise fails to parse
its reply and leaves the caller's options object untouched. -/
theorem C1_setup_get_options_roundtrip_bug :
    Database.get_options databasePyGlobals
        (some (.inl (goGetOptions (goSetup 0 (Database.serialize_options optsDemo))))) =
      .ok none ∧
    Database.setup databasePyGlobals optsDemo
        (some (.inl (goSetup 0 (Database.serialize_options optsDemo)))) = .ok optsDemo ∧
    "ErasureCodingConfig" ∉ databasePyGlobals := by
  refine ⟨rfl, rfl, ?_⟩
  decide

/-- C2 counterexample: when commit or rollback was already invoked inside the
block before the exception occurred (`_completed` is set), `__exit__` returns
`True`, which SUPPRESSES the exception instead of propagating it; the claim
says it returns `False` for every exception raised in the block. -/
theorem C2_exit_swallows_after_completion :
    Transaction.exitStep none none true completedTx = ExitOut.ret true completedTx ∧
    (Transaction.exitStep none none true completedTx).suppressed = true :=
  ⟨rfl, rfl⟩

/-- C2 (amended): for an exception raised in the block over a transaction that
has NOT already been completed, `__exit__` rolls the transaction back and
returns `False`, propagating the exception (a failing rollback propagates the
rollback error instead); but once commit or rollback has completed inside the
block, `__exit__` returns `True` and the exception is suppressed. -/
theorem C2_exit_propagates (cE rE : Option String) (st : PyTransaction)
    (hc : st.completed = false) (hid : ¬ st.transaction_id = 0) :
    (rE = none →
      Transaction.exitStep cE rE true st = ExitOut.ret false { st with completed := true }) ∧
    (∀ msg, rE = some msg →
      Transaction.exitStep cE rE true st =
        ExitOut.raised (TxError.txError ("Transaction rollback failed, details " ++ msg)) st) ∧
    (∀ st2 : PyTransaction, st2.completed = true →
      Transaction.exitStep cE rE true st2 = ExitOut.ret true st2) := by
  refine ⟨?_, ?_, ?_⟩
  · intro h
    subst h
    simp [Transaction.exitStep, Transaction.rollback, hc, hid]
  · intro msg h
    subst h
    simp [Transaction.exitStep, Transaction.rollback, hc, hid]
  · intro st2 h2
    simp [Transaction.exitStep, h2]

/-- C2 witness: the amended theorem applied to a begun, not-yet-completed
transaction whose rollback succeeds. -/
theorem C2_exit_propagates_witness :
    Transaction.exitStep none none true { transaction_id := 1, begun := true, completed := false } =
      ExitOut.ret false { transaction_id := 1, begun := true, completed := true } :=
  (C2_exit_propagates none none ⟨1, true, false⟩ rfl (by decide)).1 rfl

/-- C3 counterexample: on a transaction whose commit or rollback has already
completed, a subsequent `commit` or `rollback` silently returns success — the
engine is not even consulted — instead of failing with an invalid-state error
as the claim states. -/
theorem C3_commit_rollback_silent_after_completion :
    Transaction.commit none completedTx = TxResult.ok () completedTx ∧
    Transaction.commit (some "engine reports a conflict") completedTx =
      TxResult.ok () completedTx ∧
    Transaction.rollback none completedTx = TxResult.ok () completedTx :=
  ⟨rfl, rfl, rfl⟩

/-- C3 (amended): after a transaction has completed, any subsequent `commit` or
`rollback` on the same object is a silent no-op returning success; no
invalid-state error is raised and the state is unchanged. -/
theorem C3_completed_commit_rollback_noop (cE rE : Option String) (st : PyTransaction)
    (h : st.completed = true) :
    Transaction.commit cE st = TxResult.ok () st ∧
    Transaction.rollback rE st = TxResult.ok () st := by
  constructor <;> simp [Transaction.commit, Transaction.rollback, h]

/-- C3 witness: the amended theorem applied to a concrete completed transaction. -/
theorem C3_completed_commit_rollback_noop_witness :
    Transaction.commit none completedTx = TxResult.ok () completedTx ∧
    Transaction.rollback none completedTx = TxResult.ok () completedTx :=
  C3_completed_commit_rollback_noop none none completedTx rfl

/-- C4 counterexample: calling `set_value_data_size(Small)` on options whose
flags encode Big leaves all three flags as they were — `(False, True, False)`
instead of the claimed `(True, False, False)` — because the method has no
branch for `Small`. -/
theorem C4_small_leaves_flags_unchanged :
    bigOpts.set_value_data_size ValueDataSize.Small = bigOpts ∧
    (bigOpts.set_value_data_size ValueDataSize.Small).is_value_data_in_node_segment = false ∧
    (bigOpts.set_value_data_size ValueDataSize.Small).is_value_data_actively_persisted = true ∧
    (bigOpts.set_value_data_size ValueDataSize.Small).is_value_data_globally_cached = false :=
  ⟨rfl, rfl, rfl, rfl⟩

/-- C4 (amended): `set_value_data_size` sets the three value-data flags to
`(False, False, True)` for `Medium` and to `(False, True, False)` for `Big`
regardless of their previous values, while `Small` leaves the options
unchanged (so the `Small` encoding `(True, False, False)` holds after the
call only if the flags already held their default values). -/
theorem C4_set_value_data_size (b : BtreeOptions) :
    b.set_value_data_size ValueDataSize.Small = b ∧
    ((b.set_value_data_size ValueDataSize.Medium).is_value_data_in_node_segment = false ∧
     (b.set_value_data_size ValueDataSize.Medium).is_value_data_actively_persisted = false ∧
     (b.set_value_data_size ValueDataSize.Medium).is_value_data_globally_cached = true) ∧
    ((b.set_value_data_size ValueDataSize.Big).is_value_data_in_node_segment = false ∧
     (b.set_value_data_size ValueDataSize.Big).is_value_data_actively_persisted = true ∧
     (b.set_value_data_size ValueDataSize.Big).is_value_data_globally_cached = false) :=
  ⟨rfl, ⟨rfl, rfl, rfl⟩, ⟨rfl, rfl, rfl⟩⟩

/-- C5: for every setup whose options carry a `registry_hash_mod` below 250 or
above 750000, the effective persisted configuration carries a
`registry_hash_mod` lying within `[MIN_HASH_MOD_VALUE, MAX_HASH_MOD_VALUE]`.
The clamp itself lives in the Go engine, modelled from the spec by `goSetup`;
note that `Database._serialize_options` omits `registry_hash_mod` from the
payload, so the engine clamps its own (abstract) default. -/
theorem C5_registry_hash_mod_clamped (o : DatabaseOptions) (defaultHashMod : Int)
    (h : o.registry_hash_mod < MIN_HASH_MOD_VALUE ∨
         MAX_HASH_MOD_VALUE < o.registry_hash_mod) :
    ∃ r : Int,
      (goSetup defaultHashMod (Database.serialize_options o)).registry_hash_mod = some r ∧
      MIN_HASH_MOD_VALUE ≤ r ∧ r ≤ MAX_HASH_MOD_VALUE := by
  refine ⟨clampHashMod defaultHashMod, rfl, ?_, ?_⟩ <;>
    (simp only [clampHashMod, MIN_HASH_MOD_VALUE, MAX_HASH_MOD_VALUE]; split_ifs <;> omega)

/-- C5 witness: a setup with `registry_hash_mod = 100`, below the minimum. -/
theorem C5_registry_hash_mod_clamped_witness :
    ({ registry_hash_mod := 100 } : DatabaseOptions).registry_hash_mod < MIN_HASH_MOD_VALUE ∧
    ∃ r : Int,
      (goSetup 0 (Database.serialize_options { registry_hash_mod := 100 })).registry_hash_mod =
        some r ∧ MIN_HASH_MOD_VALUE ≤ r ∧ r ≤ MAX_HASH_MOD_VALUE :=
  ⟨by decide, C5_registry_hash_mod_clamped { registry_hash_mod := 100 } 0 (Or.inl (by decide))⟩

/- ## Claims C6 - C10 -/

/-- Helper: `_manage` maps the boolean wire reply back to the boolean. -/
theorem manage_boolReply (bid : PyUuid) (b : Bool) :
    Btree.manage bid (some (boolReply b)) = .ok b := by
  cases b <;> rfl

/-- Helper: `_to_bool` on a boolean wire reply. -/
theorem toBool_boolReply (b : Bool) : Btree.toBool (boolReply b) = .ok b := by
  cases b <;> rfl

/-- C6: every mutating call returns a boolean exactly when the engine reply
lower-cases to "true" or "false"; any other reply raises `BtreeError` carrying
the reply text, and a NULL reply raises `BtreeError` as well.  Composed with
the spec-modelled engine, `add_if_not_exists` returns `True` iff all items
were inserted and `remove` returns `True` iff all keys were removed. -/
theorem C6_mutating_call_reply_contract (K V : Type) [DecidableEq K] (r : String)
    (bid : PyUuid) (st : GoStore K V) (items : List (K × V)) (keys : List K) :
    (Btree.toBool r = .ok true ↔ pyLower r = "true") ∧
    (Btree.toBool r = .ok false ↔ pyLower r = "false") ∧
    (pyLower r ≠ "true" → pyLower r ≠ "false" → Btree.toBool r = .error r) ∧
    Btree.manage bid none =
      .error ("unable to manage item to a Btree:" ++ toString bid ++ " in SOP") ∧
    (∀ s, Btree.manage bid (some s) = Btree.toBool s) ∧
    Btree.addIfNotExistsRun bid st items =
      (.ok (engineAddIfNotExists st items).1, (engineAddIfNotExists st items).2) ∧
    Btree.removeRun bid st keys =
      (.ok (engineRemove st keys).1, (engineRemove st keys).2) := by
  refine ⟨?_, ?_, ?_, rfl, fun s => rfl, ?_, ?_⟩
  · unfold Btree.toBool
    by_cases h1 : pyLower r = "true" <;> by_cases h2 : pyLower r = "false" <;> simp [h1, h2]
  · unfold Btree.toBool
    by_cases h1 : pyLower r = "true" <;> by_cases h2 : pyLower r = "false" <;> simp [h1, h2]
  · intro h1 h2
    unfold Btree.toBool
    rw [if_neg h1, if_neg h2]
  · show (Btree.manage bid (some (boolReply (engineAddIfNotExists st items).1)),
        (engineAddIfNotExists st items).2) = _
    rw [manage_boolReply]
  · show (Btree.toBool (boolReply (engineRemove st keys).1), (engineRemove st keys).2) = _
    rw [toBool_boolReply]

/-- C6 witness: the reply "boom" neither lower-cases to "true" nor to "false"
and is raised as the `BtreeError` text. -/
theorem C6_mutating_call_reply_contract_witness :
    Btree.toBool "boom" = Except.error "boom" :=
  ((C6_mutating_call_reply_contract Nat String "boom" 1 [] [] []).2.2.1)
    (by decide) (by decide)

/-- Helper: the first component of `replaceVal` is the original key. -/
theorem replaceVal_fst (K V : Type) [DecidableEq K] (x p : K × V) :
    (replaceVal x p).1 = p.1 := by
  unfold replaceVal
  by_cases h : p.1 = x.1 <;> simp [h]

/-- Helper: `replaceVal` is idempotent. -/
theorem replaceVal_idem (K V : Type) [DecidableEq K] (x p : K × V) :
    replaceVal x (replaceVal x p) = replaceVal x p := by
  unfold replaceVal
  by_cases h : p.1 = x.1 <;> simp [h]

/-- Helper: upserting the same item twice leaves the same store as once. -/
theorem upsertOne_idem (K V : Type) [DecidableEq K] (st : GoStore K V) (x : K × V) :
    upsertOne (upsertOne st x) x = upsertOne st x := by
  by_cases h : (st.any fun p => decide (p.1 = x.1)) = true
  · have h1 : upsertOne st x = st.map (replaceVal x) := by
      unfold upsertOne
      rw [if_pos h]
    have hany : ((st.map (replaceVal x)).any fun p => decide (p.1 = x.1)) = true := by
      rw [List.any_eq_true] at h ⊢
      obtain ⟨p, hp, hpx⟩ := h
      exact ⟨replaceVal x p, List.mem_map_of_mem _ hp, by simpa [replaceVal_fst] using hpx⟩
    have h2 : upsertOne (st.map (replaceVal x)) x =
        (st.map (replaceVal x)).map (replaceVal x) := by
      unfold upsertOne
      rw [if_pos hany]
    rw [h1, h2, List.map_map]
    exact List.map_congr_left fun a _ => replaceVal_idem K V x a
  · rw [Bool.not_eq_true] at h
    have h1 : upsertOne st x = st ++ [x] := by
      unfold upsertOne
      rw [if_neg (by simp [h])]
    have hany : ((st ++ [x]).any fun p => decide (p.1 = x.1)) = true := by
      simp
    have h2 : upsertOne (st ++ [x]) x = (st ++ [x]).map (replaceVal x) := by
      unfold upsertOne
      rw [if_pos hany]
    have hall : ∀ p ∈ st, ¬ (p.1 = x.1) := by
      rw [List.any_eq_false] at h
      intro p hp
      simpa using h p hp
    have hst : st.map (replaceVal x) = st := by
      calc st.map (replaceVal x) = st.map id :=
            List.map_congr_left fun a ha => by simp [replaceVal, hall a ha]
        _ = st := List.map_id st
    have hx : [x].map (replaceVal x) = [x] := by
      simp [replaceVal]
    rw [h1, h2, List.map_append, hst, hx]

/-- C7: upserting the same item twice is observationally equivalent to
upserting it once — the stores are equal, hence `find`, `get_values` and
`count` agree on every key.  The engine is modelled from the spec. -/
theorem C7_upsert_idempotent (K V : Type) [DecidableEq K] (st : GoStore K V)
    (x : K × V) (k : K) :
    upsertOne (upsertOne st x) x = upsertOne st x ∧
    engineFind (upsertOne (upsertOne st x) x) k = engineFind (upsertOne st x) k ∧
    engineGetValues (upsertOne (upsertOne st x) x) k = engineGetValues (upsertOne st x) k ∧
    engineCount (upsertOne (upsertOne st x) x) = engineCount (upsertOne st x) := by
  have h := upsertOne_idem K V st x
  exact ⟨h, by rw [h], by rw [h], by rw [h]⟩

/-- C8: a handle returned by `Btree.open` always carries
`is_primitive_key = False` — and hence reports a non-primitive key in the
metadata of every subsequent operation — while a handle returned by
`Btree.new` carries the creating options' `is_primitive_key` unchanged. -/
theorem C8_open_forces_non_primitive_key (name : String) (transId b3id : PyUuid)
    (opts : BtreeOptions) :
    Btree.openBtree name transId (some (Sum.inl b3id)) =
      .ok { id := b3id, is_primitive_key := false, transaction_id := transId } ∧
    Btree.new opts transId (some (Sum.inl b3id)) =
      .ok { id := b3id, is_primitive_key := opts.is_primitive_key,
            transaction_id := transId } ∧
    Btree.metadata { id := b3id, is_primitive_key := false, transaction_id := transId } =
      { is_primitive_key := false, transaction_id := transId, btree_id := b3id } ∧
    (Btree.newOptions opts (toString transId) none).is_primitive_key =
      opts.is_primitive_key :=
  ⟨rfl, rfl, rfl, rfl⟩

/-- C9: a fetch whose engine reply carries both an error and a result returns
the partial item list and only logs the error; an error with no result raises
it; no result and no error returns `None`; and `_get` applies this reply
handling to the engine reply for the clamped paging info. -/
theorem C9_fetch_partial_results (I : Type) (e : String) (items : List I) :
    Btree.getOutcome ({ result := some items, error := some e } : FetchReply I) =
      (.ok (some items), [e]) ∧
    Btree.getOutcome ({ result := none, error := some e } : FetchReply I) =
      (.error e, []) ∧
    Btree.getOutcome ({ result := none, error := none } : FetchReply I) =
      (.ok none, []) ∧
    Btree.getOutcome ({ result := some items, error := none } : FetchReply I) =
      (.ok (some items), []) ∧
    ∀ (engine : PagingInfo → FetchReply I) (p : PagingInfo),
      (Btree.get engine p).1 = Btree.getOutcome (engine (clampPaging p)) :=
  ⟨rfl, rfl, rfl, rfl, fun engine p => rfl⟩

/-- C10: `_get` clamps an out-of-range paging direction to the nearest bound —
above 1 becomes Backward (1), below 0 becomes Forward (0), values in {0, 1}
pass through unchanged — and the caller's `PagingInfo` object after the call
is exactly the clamped one, which is also what the engine receives. -/
theorem C10_paging_direction_clamped (p : PagingInfo)
    (engine : PagingInfo → FetchReply Nat) :
    (PagingDirection.value .Backward < p.direction →
      clampPaging p = { p with direction := PagingDirection.value .Backward }) ∧
    (p.direction < PagingDirection.value .Forward →
      clampPaging p = { p with direction := PagingDirection.value .Forward }) ∧
    ((p.direction = 0 ∨ p.direction = 1) → clampPaging p = p) ∧
    Btree.get engine p = (Btree.getOutcome (engine (clampPaging p)), clampPaging p) := by
  refine ⟨?_, ?_, ?_, rfl⟩
  · intro h
    have hu : clampDirUpper p = { p with direction := PagingDirection.value .Backward } := by
      unfold clampDirUpper
      rw [if_pos h]
    have hl : clampDirLower { p with direction := PagingDirection.value .Backward } =
        { p with direction := PagingDirection.value .Backward } := by
      unfold clampDirLower
      rw [if_neg (by simp [PagingDirection.value])]
    unfold clampPaging
    rw [hu, hl]
  · intro h
    have h1 : ¬ PagingDirection.value .Backward < p.direction := by
      simp only [PagingDirection.value] at h ⊢
      omega
    have hu : clampDirUpper p = p := by
      unfold clampDirUpper
      rw [if_neg h1]
    have hl : clampDirLower p = { p with direction := PagingDirection.value .Forward } := by
      unfold clampDirLower
      rw [if_pos h]
    unfold clampPaging
    rw [hu, hl]
  · intro h
    have hu : clampDirUpper p = p := by
      unfold clampDirUpper
      rcases h with h0 | h1
      · rw [if_neg (by simp [PagingDirection.value, h0])]
      · rw [if_neg (by simp [PagingDirection.value, h1])]
    have hl : clampDirLower p = p := by
      unfold clampDirLower
      rcases h with h0 | h1
      · rw [if_neg (by simp [PagingDirection.value, h0])]
      · rw [if_neg (by simp [PagingDirection.value, h1])]
    unfold clampPaging
    rw [hu, hl]

/-- C10 witness: direction 5 is clamped to Backward (1) and direction -3 is
clamped to Forward (0). -/
theorem C10_paging_direction_clamped_witness :
    PagingDirection.value .Backward < (5 : Int) ∧
    clampPaging { direction := 5 } = { direction := 1 } ∧
    (-3 : Int) < PagingDirection.value .Forward ∧
    clampPaging { direction := -3 } = { direction := 0 } :=
  ⟨by decide,
   (C10_paging_direction_clamped { direction := 5 } (fun _ => ⟨none, none⟩)).1 (by decide),
   by decide,
   (C10_paging_direction_clamped { direction := -3 } (fun _ => ⟨none, none⟩)).2.1 (by decide)⟩
